import Mathlib

/-!
# Verification of the mini-one debit-card ledger

A shallow embedding of the transaction / debit-card model of
`src/lib/storage/models/debitCard.js` together with proofs about the
reconciliation engine (`validatePending`), the interest accrual job
(`addBalanceInterest`), the balance calculator (`getBalances`) and the
transaction factory (`Transaction.create` and friends).

Modelling conventions:
* Monetary amounts are rationals (`ℚ`); the source validates every amount to
  at most two decimal digits, so rationals are exact for every value the
  system handles.
* Dates are epoch milliseconds (`Int`), matching the JavaScript arithmetic
  `new Date() - lastOverdraftFee > FIVE_DAYS`.
* `type`, `subtype`, `status` and `vender` are `String`s, exactly as in the
  mongoose schema (which stores them as strings constrained to enums).
* Fallible operations return `Except HandledErr α`; a thrown `HandledError`
  is the `.error` case.
* Storage-side document identifiers are `Nat`s supplied by the caller; the
  source lets the storage layer generate them.
-/

namespace MiniOne

/-- Decidable equality of `Except` results, for evaluating the model on
concrete inputs. -/
instance {ε α : Type} [DecidableEq ε] [DecidableEq α] : DecidableEq (Except ε α) := fun a b =>
  match a, b with
  | .ok x, .ok y =>
    match decEq x y with
    | isTrue h => isTrue (by rw [h])
    | isFalse h => isFalse (by intro hc; cases hc; exact h rfl)
  | .error x, .error y =>
    match decEq x y with
    | isTrue h => isTrue (by rw [h])
    | isFalse h => isFalse (by intro hc; cases hc; exact h rfl)
  | .ok _, .error _ => isFalse (by intro hc; cases hc)
  | .error _, .ok _ => isFalse (by intro hc; cases hc)

/-- `HandledError` from `src/lib/util/handledError.js`: a message plus an
HTTP-like code (defaulting to 500 at construction sites that omit it). -/
structure HandledErr where
  message : String
  code : Nat
deriving DecidableEq, Repr

/-- A document of the `Transaction` collection (schema in `debitCard.js`). -/
structure Transaction where
  id : Nat
  date : Int
  type : String
  subtype : String
  amount : ℚ
  status : String
  vender : String
  description : String
  debitCard : Nat
  user : Nat
deriving DecidableEq, Repr

/-- A document of the `DebitCard` collection (schema in `debitCard.js`).
`lastOverdraftFee` is `none` when the card has never been charged a fee
(the schema has no default for the field). -/
structure DebitCard where
  id : Nat
  accountNumber : String
  active : Bool
  lastOverdraftFee : Option Int
  user : Nat
deriving DecidableEq, Repr

/-- Result shape of `DebitCard.methods.getBalances`. -/
structure Balances where
  currentBalance : ℚ
  pendingBalance : ℚ
  finalBalance : ℚ
deriving DecidableEq, Repr

/-- `TRANSACTION_TYPES` -/
def TRANSACTION_TYPES : List String := ["debit", "withdrawal"]

/-- `TRANSACTION_DEBIT_SUBTYPES` -/
def TRANSACTION_DEBIT_SUBTYPES : List String := ["credit", "refund", "interest", "cashback"]

/-- `TRANSACTION_WITHDRAWAL_SUBTYPES` -/
def TRANSACTION_WITHDRAWAL_SUBTYPES : List String := ["purchase", "fee", "transfer"]

/-- `TRANSACTION_STATUSES` -/
def TRANSACTION_STATUSES : List String := ["pending", "completed", "failed", "canceled"]

/-- `CASHBACK_VENDERS` -/
def CASHBACK_VENDERS : List String := ["WLMRT", "AMZN", "APPL"]

/-- `CASHBACK_RATE` (default `0.01`; the env override is out of scope). -/
def CASHBACK_RATE : ℚ := 1 / 100

/-- `INTEREST_RATE` (default `0.01`). -/
def INTEREST_RATE : ℚ := 1 / 100

/-- `MAX_NEGATIVE_BALANCE` (default `-100`). -/
def MAX_NEGATIVE_BALANCE : ℚ := -100

/-- `FIVE_DAYS = 5 * 24 * 60 * 60 * 1000` milliseconds. -/
def FIVE_DAYS : Int := 5 * 24 * 60 * 60 * 1000

/-- JavaScript `Math.round`: rounds to the nearest integer, halves toward
positive infinity, i.e. `⌊x + 1/2⌋` (stated via the computable `Rat.floor`,
which agrees with `Int.floor` by `Rat.floor_def'`). -/
def jsRound (x : ℚ) : ℤ := (x + 1 / 2).floor

/-- The source's two-decimal rounding idiom `Math.round(x * 100) / 100`. -/
def round2 (x : ℚ) : ℚ := (jsRound (x * 100) : ℚ) / 100

/-- A JavaScript numeric value as it flows through loose arithmetic:
`some q` is an ordinary number, `none` stands for `undefined` (and for the
`NaN` that arithmetic on `undefined` produces). -/
abbrev JSNum := Option ℚ

/-- Reading a property that was never set on an object yields `undefined`. -/
def jsUndefined : JSNum := none

/-- JavaScript `+` on loose numbers: `undefined + x` is `NaN`. -/
def jsAdd : JSNum → JSNum → JSNum
  | some a, some b => some (a + b)
  | _, _ => none

/-- JavaScript `<` on loose numbers: every comparison involving `NaN`
evaluates to `false`. -/
def jsLt : JSNum → JSNum → Bool
  | some a, some b => decide (a < b)
  | _, _ => false

/-- JavaScript `String.prototype.toUpperCase` on the ASCII strings this
system handles: uppercase every character.  (Equal to `String.toUpper`,
stated over the character list so that it evaluates.) -/
def jsToUpperCase (s : String) : String := ⟨s.data.map Char.toUpper⟩

/-- `DebitCard.methods.getBalances`: one aggregation over the `Transaction`
collection, `$match`-ing the card, `$group`-ing with `_id: null` and summing
`amount` under `$cond` on the status.  When the card has no transactions the
`$group` stage emits no document at all, the source dereferences
`totals[0].completed` on an empty array, and the resulting `TypeError` is
caught and rethrown as `HandledError('Error getting debit card balances', 500)`. -/
def getBalances (txns : List Transaction) (cardId : Nat) : Except HandledErr Balances :=
  let matched := txns.filter (fun t => t.debitCard == cardId)
  if matched.isEmpty then
    .error ⟨"Error getting debit card balances", 500⟩
  else
    let completed := (matched.map (fun t => if t.status = "completed" then t.amount else 0)).sum
    let pending := (matched.map (fun t => if t.status = "pending" then t.amount else 0)).sum
    .ok ⟨completed, pending, completed + pending⟩

/-- How `Transaction.statics.create` receives its target card: an
already-loaded model instance, a card id, or an account number. -/
inductive CardRef
  | byCard (card : DebitCard)
  | byId (id : Nat)
  | byAccountNumber (accountNumber : String)

/-- Resolution of a `CardRef` against the `DebitCard` collection, as done by
the `findOne` calls inside `Transaction.statics.create`. -/
def findCard (cards : List DebitCard) : CardRef → Option DebitCard
  | .byCard card => some card
  | .byId i => cards.find? (fun c => c.id == i)
  | .byAccountNumber a => cards.find? (fun c => c.accountNumber == a)

/-- `Transaction.statics.create`.  The `typeof` checks on `vender` and
`description` always pass here because the model types them as `String`.
The created document gets the schema default status `"pending"`; `skipSave`
only defers persistence and does not change the returned object, so it is
not modelled.  `newId` stands for the storage-generated `_id`. -/
def Transaction.create (cards : List DebitCard) (type subtype : String) (amount : ℚ)
    (vender description : String) (ref : CardRef) (newId : Nat) (now : Int) :
    Except HandledErr Transaction :=
  if ¬ TRANSACTION_TYPES.contains type then
    .error ⟨"Valid transaction type required", 400⟩
  else if type = "debit" ∧ ¬ TRANSACTION_DEBIT_SUBTYPES.contains subtype then
    .error ⟨"Valid debit transaction subtype required", 400⟩
  else if type = "debit" ∧ ¬ (0 < amount ∧ round2 amount = amount) then
    .error ⟨"Debit transaction amount required as a positive number with no more than 2 decimal places", 400⟩
  else if type ≠ "debit" ∧ ¬ TRANSACTION_WITHDRAWAL_SUBTYPES.contains subtype then
    .error ⟨"Valid withdrawal transaction subtype required", 400⟩
  else if type ≠ "debit" ∧ ¬ (amount < 0 ∧ round2 amount = amount) then
    .error ⟨"Withdrawal transaction amount required as a negative number with no more than 2 decimal places", 400⟩
  else
    match findCard cards ref with
    | none => .error ⟨"Debit card not found or inactive for the account number provided", 400⟩
    | some card =>
      if ¬ card.active then
        .error ⟨"Debit card not found or inactive for the account number provided", 400⟩
      else
        .ok { id := newId, date := now, type := type, subtype := subtype, amount := amount,
              status := "pending", vender := vender, description := description,
              debitCard := card.id, user := card.user }

/-- `Transaction.statics.createTransferTransaction`.  `id1`/`id2` stand for
the storage-generated ids of the two created documents; both documents are
persisted by `Transaction.create` (no `skipSave`). -/
def Transaction.createTransferTransaction (cards : List DebitCard) (txns : List Transaction)
    (senderAccountNumber receiverAccountNumber : String) (amount : ℚ)
    (id1 id2 : Nat) (now : Int) : Except HandledErr (Transaction × Transaction) :=
  if amount ≤ 0 then .error ⟨"Transfer amount required as a positive number", 400⟩
  else
    match cards.find? (fun c => c.accountNumber == senderAccountNumber) with
    | none => .error ⟨"Sender debit card not found or is inactive", 400⟩
    | some senderDebitCard =>
      if ¬ senderDebitCard.active then
        .error ⟨"Sender debit card not found or is inactive", 400⟩
      else
        match cards.find? (fun c => c.accountNumber == receiverAccountNumber) with
        | none => .error ⟨"Receiver debit card not found or is inactive", 400⟩
        | some receiverDebitCard =>
          if ¬ receiverDebitCard.active then
            .error ⟨"Receiver debit card not found or is inactive", 400⟩
          else
            match getBalances txns senderDebitCard.id with
            | .error e => .error e
            | .ok senderBalance =>
              if senderBalance.finalBalance < amount then
                .error ⟨"Insufficient funds for transfer", 400⟩
              else do
                let senderTransaction ← Transaction.create cards "withdrawal" "transfer"
                  (-amount) "SELF" ("Transfer to " ++ toString receiverDebitCard.user)
                  (.byCard senderDebitCard) id1 now
                let receiverTransaction ← Transaction.create cards "debit" "credit"
                  amount "SELF" ("Transfer from " ++ toString senderDebitCard.user)
                  (.byCard receiverDebitCard) id2 now
                .ok (senderTransaction, receiverTransaction)

/-- `Transaction.statics.createOverdraftFeeTransaction`: a `-10` withdrawal
fee created with `skipSave`, whose status is set to `completed` before the
first save, after which the card's `lastOverdraftFee` is moved to `now`.
The guard on `debitCard._id`/`_user` always passes here because the model
carries those fields.  Returns the fee transaction and the updated card. -/
def Transaction.createOverdraftFeeTransaction (cards : List DebitCard) (debitCard : DebitCard)
    (newId : Nat) (now : Int) : Except HandledErr (Transaction × DebitCard) := do
  let feeTransaction ← Transaction.create cards "withdrawal" "fee" (-10) "ONE"
    "Overdraft fee" (.byCard debitCard) newId now
  .ok ({ feeTransaction with status := "completed" },
       { debitCard with lastOverdraftFee := some now })

/-- `Transaction.statics.createCashbackTransaction`.  The source first checks
the falsiness guard (`!transaction.amount` is the only constituent that can
fire in this model — a zero amount), then requires a completed
withdrawal/purchase, then builds the cashback debit via `Transaction.create`
(resolving the card by id, which also requires the card to exist and be
active) and sets it to `completed` before the first save. -/
def Transaction.createCashbackTransaction (cards : List DebitCard) (transaction : Transaction)
    (newId : Nat) (now : Int) : Except HandledErr Transaction :=
  if transaction.amount = 0 then
    .error ⟨"Invalid transaction parameters for cashback", 400⟩
  else if ¬ (transaction.status = "completed" ∧ transaction.type = "withdrawal" ∧
             transaction.subtype = "purchase") then
    .error ⟨"Transaction invalid for cashback - must be completed purchase", 400⟩
  else do
    let cashbackTransaction ← Transaction.create cards "debit" "cashback"
      (round2 (|transaction.amount| * CASHBACK_RATE)) "ONE"
      ("Cashback for eligible purchase - " ++ toString transaction.id)
      (.byId transaction.debitCard) newId now
    .ok { cashbackTransaction with status := "completed" }

/-- `Transaction.methods.cancel`: only a `pending` transaction may be
canceled; anything else raises the 400 client fault. -/
def Transaction.cancel (transaction : Transaction) : Except HandledErr Transaction :=
  if transaction.status ≠ "pending" then
    .error ⟨"Transaction cannot be canceled once executed", 400⟩
  else
    .ok { transaction with status := "canceled" }

/-- Ambient data for one `validatePending` run: the `DebitCard` collection,
the wall clock, and two oracles modelling storage failures that the source
swallows inside its per-transaction `try`: `updateOneFails t` means the
`updateOne` persisting transaction `t`'s status throws, and
`cashbackSaveFails t` means the `save()` of the cashback derived from
transaction `t` throws (so the cashback is not persisted and the error
propagates to the loop's `catch`). -/
structure SettleEnv where
  cards : List DebitCard
  now : Int
  updateOneFails : Nat → Bool
  cashbackSaveFails : Nat → Bool

/-- The mutable state of `validatePending`'s per-card loop: the running
`debitBalance.currentBalance`, the in-memory status assignments made to the
group's transactions (`settled`), the `(transaction id, status)` pairs that
`updateOne` actually persisted (`updates`), and the cashback transactions
persisted as side effects (`cashbacks`). -/
structure GroupState where
  currentBalance : ℚ
  settled : List (Nat × String)
  updates : List (Nat × String)
  cashbacks : List Transaction
deriving DecidableEq, Repr

/-- One iteration of the inner `for (const transaction of
transactionGroup.transactions)` loop of `Transaction.statics.validatePending`
(lines 748–774), including the `try`/`catch` that swallows per-transaction
errors.  Note the withdrawal guard: the source compares
`debitBalance.currentbalance + transaction.amount` — `currentbalance` with a
lowercase `b`, a property `getBalances` never sets, hence `undefined`; the
sum is `NaN` and the comparison with `MAX_NEGATIVE_BALANCE` is always false,
which is modelled by `jsUndefined` flowing through `jsAdd`/`jsLt`. -/
def settleOne (env : SettleEnv) (st : GroupState) (transaction : Transaction) : GroupState :=
  if transaction.type = "withdrawal" then
    if jsLt (jsAdd jsUndefined (some transaction.amount)) (some MAX_NEGATIVE_BALANCE) then
      let st := { st with settled := st.settled ++ [(transaction.id, "failed")] }
      if env.updateOneFails transaction.id then st
      else { st with updates := st.updates ++ [(transaction.id, "failed")] }
    else
      let st := { st with settled := st.settled ++ [(transaction.id, "completed")],
                          currentBalance := st.currentBalance + transaction.amount }
      if CASHBACK_VENDERS.contains (jsToUpperCase transaction.vender) then
        match Transaction.createCashbackTransaction env.cards
            { transaction with status := "completed" } 0 env.now with
        | .error _ => st
        | .ok cashbackTransaction =>
          if env.cashbackSaveFails transaction.id then st
          else
            let st := { st with cashbacks := st.cashbacks ++ [cashbackTransaction] }
            if env.updateOneFails transaction.id then st
            else { st with updates := st.updates ++ [(transaction.id, "completed")] }
      else
        if env.updateOneFails transaction.id then st
        else { st with updates := st.updates ++ [(transaction.id, "completed")] }
  else
    let st := { st with settled := st.settled ++ [(transaction.id, "completed")],
                        currentBalance := st.currentBalance + transaction.amount }
    if env.updateOneFails transaction.id then st
    else { st with updates := st.updates ++ [(transaction.id, "completed")] }

/-- Derived characterisation (see `settleOne_eq`): the status update that
one `settleOne` step manages to persist for its transaction. -/
def updEntry (env : SettleEnv) (t : Transaction) : List (Nat × String) :=
  if t.type = "withdrawal" then
    if CASHBACK_VENDERS.contains (jsToUpperCase t.vender) then
      match Transaction.createCashbackTransaction env.cards
          { t with status := "completed" } 0 env.now with
      | .error _ => []
      | .ok _ =>
        if env.cashbackSaveFails t.id then []
        else if env.updateOneFails t.id then [] else [(t.id, "completed")]
    else if env.updateOneFails t.id then [] else [(t.id, "completed")]
  else if env.updateOneFails t.id then [] else [(t.id, "completed")]

/-- Derived characterisation (see `settleOne_eq`): the cashback transactions
one `settleOne` step persists for its transaction. -/
def cbEntry (env : SettleEnv) (t : Transaction) : List Transaction :=
  if t.type = "withdrawal" then
    if CASHBACK_VENDERS.contains (jsToUpperCase t.vender) then
      match Transaction.createCashbackTransaction env.cards
          { t with status := "completed" } 0 env.now with
      | .error _ => []
      | .ok cashbackTransaction =>
        if env.cashbackSaveFails t.id then [] else [cashbackTransaction]
    else []
  else []

/-- Outcome of processing one card's group inside `validatePending`. -/
structure GroupResult where
  state : GroupState
  fee : Option Transaction
  card : DebitCard
deriving Repr

/-- The body of the outer `for (const transactionGroup of transactionsByCard)`
loop of `Transaction.statics.validatePending` for a single card: seed the
running balance from `getBalances` (skipping the whole group — `none` — when
that fails), settle each transaction of the group in order, then charge an
overdraft fee when the running balance ended negative, the card has a truthy
`lastOverdraftFee` and that fee is more than `FIVE_DAYS` old; a failure
creating the fee is swallowed.  `txns` is the full transaction store the
balance aggregation runs against. -/
def validatePendingGroup (env : SettleEnv) (txns : List Transaction) (debitCard : DebitCard)
    (group : List Transaction) : Option GroupResult :=
  match getBalances txns debitCard.id with
  | .error _ => none
  | .ok debitBalance =>
    let st := group.foldl (settleOne env) ⟨debitBalance.currentBalance, [], [], []⟩
    let staleFee : Bool :=
      match debitCard.lastOverdraftFee with
      | some d => decide (env.now - d > FIVE_DAYS)
      | none => false
    if decide (st.currentBalance < 0) && staleFee then
      match Transaction.createOverdraftFeeTransaction env.cards debitCard 0 env.now with
      | .error _ => some ⟨st, none, debitCard⟩
      | .ok (fee, card) => some ⟨st, some fee, card⟩
    else some ⟨st, none, debitCard⟩

/-- The `$match: {status: 'completed'}` stage of `addBalanceInterest`. -/
def completedOf (txns : List Transaction) : List Transaction :=
  txns.filter (fun t => t.status == "completed")

/-- Distinct elements of a list in first-occurrence order: the `_id: '$_user'`
keys produced by the `$group` stage. -/
def distinctKeys (l : List Nat) : List Nat :=
  l.foldl (fun acc u => if u ∈ acc then acc else acc ++ [u]) []

/-- `totalBalance` of one user in the `$group` stage: the sum of the amounts
of the user's completed transactions. -/
def totalBalanceFor (txns : List Transaction) (u : Nat) : ℚ :=
  (((completedOf txns).filter (fun t => t.user == u)).map Transaction.amount).sum

/-- The `$first: '$_debitCard'` accumulator of the `$group` stage: the card
reference of the user's first completed transaction. -/
def firstCardFor (txns : List Transaction) (u : Nat) : Nat :=
  match (completedOf txns).find? (fun t => t.user == u) with
  | some t => t.debitCard
  | none => 0

/-- `Transaction.statics.addBalanceInterest`: aggregate completed
transactions grouped by user with summed amounts and a representative card,
keep the strictly positive totals, and stage one interest transaction per
such user (status pre-set to `completed`); the staged list is then handed to
a single unordered `insertMany`.  Returns the staged list. -/
def addBalanceInterest (txns : List Transaction) (now : Int) : List Transaction :=
  (distinctKeys ((completedOf txns).map (fun t => t.user))).filterMap (fun u =>
    if 0 < totalBalanceFor txns u then
      some { id := 0, date := now, type := "debit", subtype := "interest",
             amount := round2 (totalBalanceFor txns u * INTEREST_RATE),
             status := "completed", vender := "ONE",
             description := "Interest added to account",
             debitCard := firstCardFor txns u, user := u }
    else none)

/-! ### Concrete fixtures used to evaluate the model (witnesses and
counterexamples). -/

/-- An active card that has never been charged an overdraft fee. -/
def cardA : DebitCard := ⟨1, "4000000000000001", true, none, 7⟩

/-- A second active card (transfer receiver). -/
def cardB : DebitCard := ⟨2, "4000000000000002", true, none, 8⟩

/-- An active card whose last overdraft fee is older than five days relative
to `envA.now`. -/
def cardStale : DebitCard := ⟨3, "4000000000000003", true, some 0, 9⟩

/-- A settle environment over the three fixture cards with no storage
failures; `now = 10^9` ms, more than `FIVE_DAYS` past epoch `0`. -/
def envA : SettleEnv := ⟨[cardA, cardB, cardStale], 1000000000, fun _ => false, fun _ => false⟩

/-- A completed 100-unit credit on `cardA`. -/
def dep100 : Transaction := ⟨21, 0, "debit", "credit", 100, "completed", "SELF", "", 1, 7⟩

/-- A pending 150-unit purchase withdrawal on `cardA`, non-cashback vendor. -/
def wd150 : Transaction := ⟨11, 1, "withdrawal", "purchase", -150, "pending", "XYZ", "", 1, 7⟩

/-- A pending 0.30 purchase withdrawal on `cardA` at a cashback vendor: its
cashback amount rounds to `0.00`. -/
def small30 : Transaction := ⟨12, 1, "withdrawal", "purchase", -3/10, "pending", "AMZN", "", 1, 7⟩

/-- A pending 20-unit purchase withdrawal on `cardA` at a cashback vendor
spelled in lowercase. -/
def buy20 : Transaction := ⟨13, 1, "withdrawal", "purchase", -20, "pending", "amzn", "", 1, 7⟩

/-- A pending 5-unit purchase withdrawal on `cardStale`. -/
def wd5 : Transaction := ⟨15, 1, "withdrawal", "purchase", -5, "pending", "XYZ", "", 3, 9⟩

/-- A pending 40-unit debit credit on `cardA`. -/
def dep40 : Transaction := ⟨22, 2, "debit", "credit", 40, "pending", "SELF", "", 1, 7⟩

/-- A completed 50-unit credit on `cardB` (user 8), for the interest job. -/
def dep50 : Transaction := ⟨23, 0, "debit", "credit", 50, "completed", "SELF", "", 2, 8⟩

/-- `env` with one additional storage failure: the `updateOne` persisting the
status of the transaction with id `i` throws. -/
def forceUpdateFail (env : SettleEnv) (i : Nat) : SettleEnv :=
  { env with updateOneFails := fun j => if j = i then true else env.updateOneFails j }

/-! ### General lemmas -/

theorem jsAdd_undefined_left (x : JSNum) : jsAdd jsUndefined x = none := by
  cases x <;> rfl

theorem jsLt_jsAdd_undefined (x y : JSNum) : jsLt (jsAdd jsUndefined x) y = false := by
  cases x <;> cases y <;> rfl

theorem ratFloor_eq_intFloor (q : ℚ) : q.floor = ⌊q⌋ := by
  rw [Rat.floor_def', Rat.floor_def]

theorem jsRound_intCast (k : ℤ) : jsRound (k : ℚ) = k := by
  unfold jsRound
  rw [ratFloor_eq_intFloor, add_comm, Int.floor_add_int]
  norm_num

theorem round2_intCast_div (k : ℤ) : round2 ((k : ℚ) / 100) = (k : ℚ) / 100 := by
  unfold round2
  rw [div_mul_cancel₀ (b := (100 : ℚ)) (k : ℚ) (by norm_num), jsRound_intCast]

theorem round2_idem (x : ℚ) : round2 (round2 x) = round2 x :=
  round2_intCast_div (jsRound (x * 100))

theorem round2_fix_ex {x : ℚ} (h : round2 x = x) : ∃ k : ℤ, x = (k : ℚ) / 100 :=
  ⟨jsRound (x * 100), h.symm⟩

theorem round2_neg_fix {x : ℚ} (h : round2 x = x) : round2 (-x) = -x := by
  obtain ⟨k, rfl⟩ := round2_fix_ex h
  have hcast : -((k : ℚ) / 100) = ((-k : ℤ) : ℚ) / 100 := by push_cast; ring
  rw [hcast, round2_intCast_div]

theorem round2_zero : round2 0 = 0 := by
  have := round2_intCast_div 0
  simpa using this

theorem settleOne_eq (env : SettleEnv) (st : GroupState) (t : Transaction) :
    settleOne env st t =
      ⟨st.currentBalance + t.amount,
       st.settled ++ [(t.id, "completed")],
       st.updates ++ updEntry env t,
       st.cashbacks ++ cbEntry env t⟩ := by
  unfold settleOne updEntry cbEntry
  rw [jsLt_jsAdd_undefined]
  simp only [Bool.false_eq_true, if_false]
  split
  · split
    · split
      · simp
      · split
        · simp
        · split <;> simp
    · split <;> simp
  · split <;> simp

theorem settleFold_eq (env : SettleEnv) (group : List Transaction) (st : GroupState) :
    group.foldl (settleOne env) st =
      ⟨st.currentBalance + (group.map Transaction.amount).sum,
       st.settled ++ group.flatMap (fun t => [(t.id, "completed")]),
       st.updates ++ group.flatMap (updEntry env),
       st.cashbacks ++ group.flatMap (cbEntry env)⟩ := by
  induction group generalizing st with
  | nil => simp
  | cons t ts ih =>
    rw [List.foldl_cons, settleOne_eq, ih]
    simp [add_assoc]

theorem mem_updEntry {env : SettleEnv} {t : Transaction} {p : Nat × String}
    (hp : p ∈ updEntry env t) : p = (t.id, "completed") := by
  unfold updEntry at hp
  repeat' split at hp
  all_goals simp_all

theorem mem_cbEntry {env : SettleEnv} {t : Transaction} {cb : Transaction}
    (hcb : cb ∈ cbEntry env t) :
    t.type = "withdrawal" ∧ CASHBACK_VENDERS.contains (jsToUpperCase t.vender) = true ∧
    env.cashbackSaveFails t.id = false ∧
    Transaction.createCashbackTransaction env.cards
      { t with status := "completed" } 0 env.now = .ok cb := by
  unfold cbEntry at hcb
  repeat' split at hcb
  all_goals simp_all

theorem create_ok {cards : List DebitCard} {type subtype : String} {amount : ℚ}
    {vender description : String} {ref : CardRef} {newId : Nat} {now : Int} {t : Transaction}
    (h : Transaction.create cards type subtype amount vender description ref newId now = .ok t) :
    ∃ card : DebitCard, findCard cards ref = some card ∧ card.active = true ∧
      TRANSACTION_TYPES.contains type = true ∧
      (type = "debit" → TRANSACTION_DEBIT_SUBTYPES.contains subtype = true ∧
        0 < amount ∧ round2 amount = amount) ∧
      (type ≠ "debit" → TRANSACTION_WITHDRAWAL_SUBTYPES.contains subtype = true ∧
        amount < 0 ∧ round2 amount = amount) ∧
      t = { id := newId, date := now, type := type, subtype := subtype, amount := amount,
            status := "pending", vender := vender, description := description,
            debitCard := card.id, user := card.user } := by
  unfold Transaction.create at h
  repeat' split at h
  all_goals try exact Except.noConfusion h
  rename_i h1 h2 h3 h4 h5 x card hfind h6
  refine ⟨card, hfind, by simpa using h6, by simpa using h1, ?_, ?_, by cases h; rfl⟩
  · intro hd
    refine ⟨?_, ?_⟩
    · rcases not_and.mp h2 hd with hc
      simpa using hc
    · rcases not_and.mp h3 hd with hc
      simpa using not_not.mp (by simpa using hc)
  · intro hd
    refine ⟨?_, ?_⟩
    · rcases not_and.mp h4 hd with hc
      simpa using hc
    · rcases not_and.mp h5 hd with hc
      simpa using not_not.mp (by simpa using hc)

theorem create_ok_of {cards : List DebitCard} {type subtype : String} {amount : ℚ}
    {vender description : String} {ref : CardRef} {newId : Nat} {now : Int} {card : DebitCard}
    (htype : TRANSACTION_TYPES.contains type = true)
    (hdeb : type = "debit" → TRANSACTION_DEBIT_SUBTYPES.contains subtype = true ∧
      0 < amount ∧ round2 amount = amount)
    (hwd : type ≠ "debit" → TRANSACTION_WITHDRAWAL_SUBTYPES.contains subtype = true ∧
      amount < 0 ∧ round2 amount = amount)
    (hfind : findCard cards ref = some card) (hact : card.active = true) :
    Transaction.create cards type subtype amount vender description ref newId now =
      .ok { id := newId, date := now, type := type, subtype := subtype, amount := amount,
            status := "pending", vender := vender, description := description,
            debitCard := card.id, user := card.user } := by
  unfold Transaction.create
  by_cases hd : type = "debit"
  · obtain ⟨h1, h2, h3⟩ := hdeb hd
    rw [if_neg (not_not_intro htype), if_neg (fun hc => hc.2 h1),
      if_neg (fun hc => hc.2 ⟨h2, h3⟩), if_neg (fun hc => hc.1 hd),
      if_neg (fun hc => hc.1 hd)]
    simp [hfind, hact]
  · obtain ⟨h1, h2, h3⟩ := hwd hd
    rw [if_neg (not_not_intro htype), if_neg (fun hc => hd hc.1),
      if_neg (fun hc => hd hc.1), if_neg (fun hc => hc.2 h1),
      if_neg (fun hc => hc.2 ⟨h2, h3⟩)]
    simp [hfind, hact]

theorem round2_cashback_pos_ne {t : Transaction}
    (hpos : 0 < round2 (|t.amount| * CASHBACK_RATE)) : t.amount ≠ 0 := by
  intro h0
  rw [h0] at hpos
  simp only [abs_zero, zero_mul] at hpos
  rw [round2_zero] at hpos
  exact lt_irrefl 0 hpos

theorem createCashbackTransaction_ok {cards : List DebitCard} {t : Transaction} {newId : Nat}
    {now : Int} {cb : Transaction}
    (h : Transaction.createCashbackTransaction cards t newId now = .ok cb) :
    ∃ c : DebitCard, cards.find? (fun cd => cd.id == t.debitCard) = some c ∧ c.active = true ∧
      t.status = "completed" ∧ t.type = "withdrawal" ∧ t.subtype = "purchase" ∧
      0 < round2 (|t.amount| * CASHBACK_RATE) ∧
      cb = { id := newId, date := now, type := "debit", subtype := "cashback",
             amount := round2 (|t.amount| * CASHBACK_RATE), status := "completed",
             vender := "ONE",
             description := "Cashback for eligible purchase - " ++ toString t.id,
             debitCard := c.id, user := c.user } := by
  unfold Transaction.createCashbackTransaction at h
  split at h
  · exact Except.noConfusion h
  split at h
  · exact Except.noConfusion h
  rename_i hne hok
  have hok' := not_not.mp (by simpa using hok)
  cases hc : Transaction.create cards "debit" "cashback"
      (round2 (|t.amount| * CASHBACK_RATE)) "ONE"
      ("Cashback for eligible purchase - " ++ toString t.id)
      (.byId t.debitCard) newId now with
  | error e =>
    rw [hc] at h
    exact Except.noConfusion h
  | ok x =>
    rw [hc] at h
    obtain ⟨c, hfind, hact, _, hdeb, _, hx⟩ := create_ok hc
    obtain ⟨_, hpos, _⟩ := hdeb rfl
    refine ⟨c, hfind, hact, hok'.1, hok'.2.1, hok'.2.2, hpos, ?_⟩
    cases h
    rw [hx]

theorem createCashbackTransaction_ok_of {cards : List DebitCard} {t : Transaction} {newId : Nat}
    {now : Int} {c : DebitCard}
    (hfind : cards.find? (fun cd => cd.id == t.debitCard) = some c) (hact : c.active = true)
    (hst : t.status = "completed") (hty : t.type = "withdrawal") (hsub : t.subtype = "purchase")
    (hpos : 0 < round2 (|t.amount| * CASHBACK_RATE)) :
    Transaction.createCashbackTransaction cards t newId now =
      .ok { id := newId, date := now, type := "debit", subtype := "cashback",
            amount := round2 (|t.amount| * CASHBACK_RATE), status := "completed",
            vender := "ONE",
            description := "Cashback for eligible purchase - " ++ toString t.id,
            debitCard := c.id, user := c.user } := by
  unfold Transaction.createCashbackTransaction
  rw [if_neg (round2_cashback_pos_ne hpos), if_neg (not_not_intro ⟨hst, hty, hsub⟩)]
  rw [create_ok_of (by decide)
    (fun _ => ⟨by decide, hpos, round2_idem _⟩) (fun hd => absurd rfl hd)
    (show findCard cards (.byId t.debitCard) = some c from hfind) hact]
  rfl

theorem createOverdraftFeeTransaction_ok_of {cards : List DebitCard} {card : DebitCard}
    {newId : Nat} {now : Int} (hact : card.active = true) :
    Transaction.createOverdraftFeeTransaction cards card newId now =
      .ok ({ id := newId, date := now, type := "withdrawal", subtype := "fee", amount := -10,
             status := "completed", vender := "ONE", description := "Overdraft fee",
             debitCard := card.id, user := card.user },
           { card with lastOverdraftFee := some now }) := by
  have hr : round2 (-10 : ℚ) = -10 := by
    have := round2_intCast_div (-1000)
    norm_num at this
    exact this
  unfold Transaction.createOverdraftFeeTransaction
  rw [create_ok_of (by decide) (fun hd => absurd hd (by decide))
    (fun _ => ⟨by decide, by norm_num, hr⟩)
    (show findCard cards (.byCard card) = some card from rfl) hact]
  rfl

theorem mem_distinctKeys_aux (l : List Nat) (acc : List Nat) (u : Nat) :
    u ∈ l.foldl (fun a v => if v ∈ a then a else a ++ [v]) acc ↔ u ∈ acc ∨ u ∈ l := by
  induction l generalizing acc with
  | nil => simp
  | cons v vs ih =>
    by_cases hv : v ∈ acc
    · rw [List.foldl_cons, if_pos hv, ih, List.mem_cons]
      constructor
      · tauto
      · rintro (h | rfl | h) <;> tauto
    · rw [List.foldl_cons, if_neg hv, ih]
      simp [List.mem_append, or_assoc]

theorem mem_distinctKeys (l : List Nat) (u : Nat) : u ∈ distinctKeys l ↔ u ∈ l := by
  unfold distinctKeys
  rw [mem_distinctKeys_aux]
  simp

theorem nodup_distinctKeys_aux (l : List Nat) (acc : List Nat) (hacc : acc.Nodup) :
    (l.foldl (fun a v => if v ∈ a then a else a ++ [v]) acc).Nodup := by
  induction l generalizing acc with
  | nil => simpa
  | cons v vs ih =>
    rw [List.foldl_cons]
    by_cases hv : v ∈ acc
    · rw [if_pos hv]
      exact ih acc hacc
    · rw [if_neg hv]
      refine ih _ ?_
      rw [List.nodup_append]
      refine ⟨hacc, List.nodup_singleton v, fun x hx hxv => ?_⟩
      rw [List.mem_singleton] at hxv
      exact hv (hxv ▸ hx)

theorem nodup_distinctKeys (l : List Nat) : (distinctKeys l).Nodup :=
  nodup_distinctKeys_aux l [] List.nodup_nil

theorem filterMap_user_sublist (f : Nat → Option Transaction)
    (hf : ∀ u tx, f u = some tx → tx.user = u) (l : List Nat) :
    ((l.filterMap f).map (fun tx => tx.user)).Sublist l := by
  induction l with
  | nil => simp
  | cons u us ih =>
    rw [List.filterMap_cons]
    cases hfu : f u with
    | none => exact ih.cons u
    | some tx =>
      rw [List.map_cons, hf u tx hfu]
      exact ih.cons₂ u

theorem sum_map_ite_status (l : List Transaction) (s : String) :
    (l.map (fun t => if t.status = s then t.amount else 0)).sum =
    ((l.filter (fun t => t.status == s)).map Transaction.amount).sum := by
  induction l with
  | nil => simp
  | cons t ts ih =>
    by_cases h : t.status = s
    · simp [List.filter_cons, h, ih]
    · simp [List.filter_cons, h, ih]

theorem getBalances_nil {txns : List Transaction} {cardId : Nat}
    (hempty : txns.filter (fun t => t.debitCard == cardId) = []) :
    getBalances txns cardId = .error ⟨"Error getting debit card balances", 500⟩ := by
  simp [getBalances, hempty]

theorem append_ne_self_iff_ne_nil (l x : List Transaction) : l ++ x ≠ l ↔ x ≠ [] := by
  constructor
  · intro h hx
    exact h (by simp [hx])
  · intro hx h
    have hlen := congrArg List.length h
    rw [List.length_append] at hlen
    have : x.length = 0 := by omega
    exact hx (List.length_eq_zero.mp this)

theorem cbEntry_forceUpdateFail (env : SettleEnv) (i : Nat) (t : Transaction) :
    cbEntry (forceUpdateFail env i) t = cbEntry env t := rfl

theorem updEntry_forceUpdateFail (env : SettleEnv) (i : Nat) (t : Transaction) :
    updEntry (forceUpdateFail env i) t = (updEntry env t).filter (fun p => p.1 ≠ i) := by
  by_cases hid : t.id = i
  · have hL : updEntry (forceUpdateFail env i) t = [] := by
      unfold updEntry forceUpdateFail
      repeat' split
      all_goals simp_all
    rw [hL, eq_comm, List.filter_eq_nil_iff]
    intro p hp
    simp [mem_updEntry hp, hid]
  · have hL : updEntry (forceUpdateFail env i) t = updEntry env t := by
      unfold updEntry forceUpdateFail
      simp only [hid, if_false]
    rw [hL, eq_comm, List.filter_eq_self]
    intro p hp
    simp [mem_updEntry hp, hid]

theorem flatMap_filter_key (env : SettleEnv) (i : Nat) (group : List Transaction) :
    group.flatMap (updEntry (forceUpdateFail env i)) =
      (group.flatMap (updEntry env)).filter (fun p => p.1 ≠ i) := by
  induction group with
  | nil => simp
  | cons t ts ih =>
    rw [List.flatMap_cons, List.flatMap_cons, List.filter_append, ih,
      updEntry_forceUpdateFail]

theorem cbEntry_of_conditions {env : SettleEnv} {t : Transaction} {c : DebitCard}
    (hfind : env.cards.find? (fun cd => cd.id == t.debitCard) = some c)
    (hact : c.active = true)
    (hsave : env.cashbackSaveFails t.id = false)
    (hty : t.type = "withdrawal") (hsub : t.subtype = "purchase")
    (hven : CASHBACK_VENDERS.contains (jsToUpperCase t.vender) = true)
    (hpos : 0 < round2 (|t.amount| * CASHBACK_RATE)) :
    cbEntry env t =
      [{ id := 0, date := env.now, type := "debit", subtype := "cashback",
         amount := round2 (|t.amount| * CASHBACK_RATE), status := "completed",
         vender := "ONE",
         description := "Cashback for eligible purchase - " ++ toString t.id,
         debitCard := c.id, user := c.user }] := by
  unfold cbEntry
  rw [if_pos hty, if_pos hven]
  rw [createCashbackTransaction_ok_of (t := { t with status := "completed" })
    hfind hact rfl hty hsub hpos]
  simp [hsave]

theorem createCashbackTransaction_not_pos {cards : List DebitCard} {t : Transaction}
    {newId : Nat} {now : Int} (hne : t.amount ≠ 0)
    (hcp : t.status = "completed" ∧ t.type = "withdrawal" ∧ t.subtype = "purchase")
    (hnpos : ¬ 0 < round2 (|t.amount| * CASHBACK_RATE)) :
    Transaction.createCashbackTransaction cards t newId now =
      .error ⟨"Debit transaction amount required as a positive number with no more than 2 decimal places", 400⟩ := by
  unfold Transaction.createCashbackTransaction
  rw [if_neg hne, if_neg (not_not_intro hcp)]
  have hcr : Transaction.create cards "debit" "cashback"
      (round2 (|t.amount| * CASHBACK_RATE)) "ONE"
      ("Cashback for eligible purchase - " ++ toString t.id)
      (.byId t.debitCard) newId now =
      .error ⟨"Debit transaction amount required as a positive number with no more than 2 decimal places", 400⟩ := by
    unfold Transaction.create
    rw [if_neg (by decide), if_neg (fun hc => hc.2 (by decide)),
      if_pos ⟨rfl, fun hc => hnpos hc.1⟩]
  rw [hcr]
  rfl

theorem validatePendingGroup_state {env : SettleEnv} {txns : List Transaction}
    {card : DebitCard} {group : List Transaction} {r : GroupResult}
    (h : validatePendingGroup env txns card group = some r) :
    ∃ bal, getBalances txns card.id = .ok bal ∧
      r.state = group.foldl (settleOne env) ⟨bal.currentBalance, [], [], []⟩ := by
  unfold validatePendingGroup at h
  cases hb : getBalances txns card.id with
  | error e =>
    simp only [hb] at h
    exact Option.noConfusion h
  | ok bal =>
    simp only [hb] at h
    refine ⟨bal, rfl, ?_⟩
    split at h
    · split at h
      · cases h
        rfl
      · cases h
        rfl
    · cases h
      rfl

/-! ### Claim theorems -/

/-- C10: for an account with no transactions `getBalances` does not return
zero balances but throws the generic 500 `HandledError` (the aggregation
yields an empty result whose first element is dereferenced), and
consequently a transfer whose sender account has no transactions fails with
that same system-fault error. -/
theorem c10_empty_account_balance_throws :
    (∀ (txns : List Transaction) (cardId : Nat),
      txns.filter (fun t => t.debitCard == cardId) = [] →
      getBalances txns cardId = .error ⟨"Error getting debit card balances", 500⟩) ∧
    (∀ (cards : List DebitCard) (txns : List Transaction)
        (senderAccountNumber receiverAccountNumber : String) (amount : ℚ)
        (id1 id2 : Nat) (now : Int) (sc rc : DebitCard),
      cards.find? (fun c => c.accountNumber == senderAccountNumber) = some sc →
      sc.active = true →
      cards.find? (fun c => c.accountNumber == receiverAccountNumber) = some rc →
      rc.active = true →
      0 < amount →
      txns.filter (fun t => t.debitCard == sc.id) = [] →
      Transaction.createTransferTransaction cards txns senderAccountNumber
        receiverAccountNumber amount id1 id2 now =
        .error ⟨"Error getting debit card balances", 500⟩) := by
  refine ⟨fun txns cardId h => getBalances_nil h, ?_⟩
  intro cards txns sAcc rAcc amount id1 id2 now sc rc hs hsa hr hra hpos hempty
  have hle : ¬ amount ≤ 0 := not_le.mpr hpos
  simp only [Transaction.createTransferTransaction, hs, hr, hsa, hra, hle,
    getBalances_nil hempty, not_true_eq_false, if_false, ite_false]

/-- C4 counterexample: for an account with no transactions `getBalances`
does not return the three sums at all — it throws the 500 error, so the
claim's "for every account" fails at the empty account. -/
theorem c4_empty_account_no_balances :
    getBalances [] 1 = .error ⟨"Error getting debit card balances", 500⟩ :=
  getBalances_nil rfl

/-- C4 (amended): for every account with at least one transaction,
`getBalances` returns `currentBalance` = sum of the account's `completed`
amounts, `pendingBalance` = sum of its `pending` amounts, and
`finalBalance = currentBalance + pendingBalance`; `failed`/`canceled`
transactions contribute to none of the three (the sums range only over the
`completed` resp. `pending` filters), and the computation is a pure read. -/
theorem c4_balances_characterization (txns : List Transaction) (cardId : Nat)
    (hne : txns.filter (fun t => t.debitCard == cardId) ≠ []) :
    ∃ b : Balances,
      getBalances txns cardId = .ok b ∧
      b.currentBalance = (((txns.filter (fun t => t.debitCard == cardId)).filter
        (fun t => t.status == "completed")).map Transaction.amount).sum ∧
      b.pendingBalance = (((txns.filter (fun t => t.debitCard == cardId)).filter
        (fun t => t.status == "pending")).map Transaction.amount).sum ∧
      b.finalBalance = b.currentBalance + b.pendingBalance := by
  have hne' : (txns.filter (fun t => t.debitCard == cardId)).isEmpty = false := by
    simpa [List.isEmpty_iff] using hne
  refine ⟨⟨((txns.filter (fun t => t.debitCard == cardId)).map
      (fun t => if t.status = "completed" then t.amount else 0)).sum,
    ((txns.filter (fun t => t.debitCard == cardId)).map
      (fun t => if t.status = "pending" then t.amount else 0)).sum,
    ((txns.filter (fun t => t.debitCard == cardId)).map
      (fun t => if t.status = "completed" then t.amount else 0)).sum +
    ((txns.filter (fun t => t.debitCard == cardId)).map
      (fun t => if t.status = "pending" then t.amount else 0)).sum⟩, ?_, ?_, ?_, rfl⟩
  · simp only [getBalances, hne', Bool.false_eq_true, if_false]
  · exact sum_map_ite_status _ _
  · exact sum_map_ite_status _ _

/-- C8: `Transaction.create` rejects with a 400 client fault every debit
whose amount is not strictly positive with at most two decimal digits, and
every withdrawal whose amount is not strictly negative with at most two
decimal digits; every transaction it successfully returns satisfies the
corresponding sign and precision constraints. -/
theorem c8_create_amount_validation (cards : List DebitCard) (type subtype : String)
    (amount : ℚ) (vender description : String) (ref : CardRef) (newId : Nat) (now : Int) :
    (type = "debit" → ¬ (0 < amount ∧ round2 amount = amount) →
      ∃ e, Transaction.create cards type subtype amount vender description ref newId now =
        .error e ∧ e.code = 400) ∧
    (type = "withdrawal" → ¬ (amount < 0 ∧ round2 amount = amount) →
      ∃ e, Transaction.create cards type subtype amount vender description ref newId now =
        .error e ∧ e.code = 400) ∧
    (∀ t, Transaction.create cards type subtype amount vender description ref newId now =
        .ok t →
      (t.type = "debit" → 0 < t.amount ∧ round2 t.amount = t.amount) ∧
      (t.type = "withdrawal" → t.amount < 0 ∧ round2 t.amount = t.amount)) := by
  refine ⟨?_, ?_, ?_⟩
  · intro hd hbad
    unfold Transaction.create
    rw [if_neg (not_not_intro (by rw [hd]; decide))]
    by_cases hsub : TRANSACTION_DEBIT_SUBTYPES.contains subtype = true
    · rw [if_neg (fun hc => hc.2 hsub), if_pos ⟨hd, hbad⟩]
      exact ⟨_, rfl, rfl⟩
    · rw [if_pos ⟨hd, hsub⟩]
      exact ⟨_, rfl, rfl⟩
  · intro hw hbad
    have hne : type ≠ "debit" := by rw [hw]; decide
    unfold Transaction.create
    rw [if_neg (not_not_intro (by rw [hw]; decide)), if_neg (fun hc => hne hc.1),
      if_neg (fun hc => hne hc.1)]
    by_cases hsub : TRANSACTION_WITHDRAWAL_SUBTYPES.contains subtype = true
    · rw [if_neg (fun hc => hc.2 hsub), if_pos ⟨hne, hbad⟩]
      exact ⟨_, rfl, rfl⟩
    · rw [if_pos ⟨hne, hsub⟩]
      exact ⟨_, rfl, rfl⟩
  · intro t ht
    obtain ⟨c, _, _, _, hdeb, hwd, hteq⟩ := create_ok ht
    have hty : t.type = type := by rw [hteq]
    have hamt : t.amount = amount := by rw [hteq]
    constructor
    · intro hdt
      obtain ⟨_, h2, h3⟩ := hdeb (hty.symm.trans hdt)
      rw [hamt]
      exact ⟨h2, h3⟩
    · intro hwt
      have hw' : type = "withdrawal" := hty.symm.trans hwt
      have hne : type ≠ "debit" := by rw [hw']; decide
      obtain ⟨_, h2, h3⟩ := hwd hne
      rw [hamt]
      exact ⟨h2, h3⟩

/-- C9: every status mutation is `pending → {completed, failed, canceled}`:
`cancel` succeeds only on a `pending` transaction and yields `canceled`,
failing with a 400 client fault otherwise; the reconciliation engine only
persists `completed`/`failed` statuses and only for transactions of the
group (which the `$match` restricts to `pending` ones); and the
instant-completion paths (`create` default, cashback, overdraft fee) create
in `pending` and move straight to `completed` before the first persist. -/
theorem c9_status_transitions :
    (∀ t t' : Transaction, Transaction.cancel t = .ok t' →
      t.status = "pending" ∧ t'.status = "canceled") ∧
    (∀ t : Transaction, t.status ≠ "pending" →
      Transaction.cancel t = .error ⟨"Transaction cannot be canceled once executed", 400⟩) ∧
    (∀ (env : SettleEnv) (txns : List Transaction) (card : DebitCard)
        (group : List Transaction) (r : GroupResult),
      (∀ t ∈ group, t.status = "pending") →
      validatePendingGroup env txns card group = some r →
      ∀ p ∈ r.state.updates, (p.2 = "completed" ∨ p.2 = "failed") ∧
        ∃ t ∈ group, t.id = p.1 ∧ t.status = "pending") ∧
    (∀ (cards : List DebitCard) (type subtype : String) (amount : ℚ)
        (vender description : String) (ref : CardRef) (newId : Nat) (now : Int)
        (t : Transaction),
      Transaction.create cards type subtype amount vender description ref newId now = .ok t →
      t.status = "pending") ∧
    (∀ (cards : List DebitCard) (t : Transaction) (newId : Nat) (now : Int) (cb : Transaction),
      Transaction.createCashbackTransaction cards t newId now = .ok cb →
      cb.status = "completed") ∧
    (∀ (cards : List DebitCard) (card : DebitCard) (newId : Nat) (now : Int)
        (fee : Transaction) (card' : DebitCard),
      Transaction.createOverdraftFeeTransaction cards card newId now = .ok (fee, card') →
      fee.status = "completed") := by
  refine ⟨?_, ?_, ?_, ?_, ?_, ?_⟩
  · intro t t' h
    unfold Transaction.cancel at h
    split at h
    · exact Except.noConfusion h
    · rename_i hst
      cases h
      exact ⟨not_not.mp hst, rfl⟩
  · intro t h
    unfold Transaction.cancel
    rw [if_pos h]
  · intro env txns card group r hpend h p hp
    obtain ⟨bal, hb, hstate⟩ := validatePendingGroup_state h
    rw [hstate, settleFold_eq] at hp
    simp only [List.nil_append] at hp
    rw [List.mem_flatMap] at hp
    obtain ⟨t, htg, hpt⟩ := hp
    obtain rfl := mem_updEntry hpt
    exact ⟨Or.inl rfl, t, htg, rfl, hpend t htg⟩
  · intro cards type subtype amount vender description ref newId now t ht
    obtain ⟨c, _, _, _, _, _, hteq⟩ := create_ok ht
    rw [hteq]
  · intro cards t newId now cb h
    obtain ⟨c, _, _, _, _, _, _, hcb⟩ := createCashbackTransaction_ok h
    rw [hcb]
  · intro cards card newId now fee card' h
    unfold Transaction.createOverdraftFeeTransaction at h
    cases hc : Transaction.create cards "withdrawal" "fee" (-10) "ONE" "Overdraft fee"
        (.byCard card) newId now with
    | error e =>
      rw [hc] at h
      exact Except.noConfusion h
    | ok x =>
      rw [hc] at h
      cases h
      rfl

/-- C1 (code bug): the engine's overdraft-floor guard reads the misspelled
property `debitBalance.currentbalance` (the balances object only has
`currentBalance`), so the comparison is `undefined + amount < floor`, i.e.
`NaN < -100`, which is always false.  At the concrete failing input — running
balance `0`, floor `-100`, pending withdrawal `wd150` of `-150` — the honest
comparison `0 + (-150) < -100` is true and the spec requires `failed`, yet
the engine marks and persists the withdrawal as `completed` and drives the
running balance to `-150`. -/
theorem c1_withdrawal_below_floor_completes :
    (0 + wd150.amount < MAX_NEGATIVE_BALANCE) ∧
    jsLt (jsAdd jsUndefined (some wd150.amount)) (some MAX_NEGATIVE_BALANCE) = false ∧
    settleOne envA ⟨0, [], [], []⟩ wd150 =
      ⟨-150, [(11, "completed")], [(11, "completed")], []⟩ := by
  refine ⟨by norm_num [wd150, MAX_NEGATIVE_BALANCE], jsLt_jsAdd_undefined _ _, ?_⟩
  norm_num [settleOne, jsLt, jsAdd, jsUndefined, envA, wd150]
  intro h
  exact absurd h (by decide)

/-- C2 (amended): after a group settles on an active card whose balances
were computed, an overdraft fee transaction is created if and only if the
post-settlement running balance is negative AND the card carries a
`lastOverdraftFee` timestamp more than five days before now.  In particular
an account that has never been charged a fee receives none, whatever its
balance. -/
theorem c2_overdraft_fee_iff (env : SettleEnv) (txns : List Transaction)
    (card : DebitCard) (group : List Transaction) (r : GroupResult)
    (hact : card.active = true)
    (h : validatePendingGroup env txns card group = some r) :
    r.fee.isSome = true ↔
      (r.state.currentBalance < 0 ∧ ∃ d, card.lastOverdraftFee = some d ∧
        env.now - d > FIVE_DAYS) := by
  obtain ⟨bal, hb, hstate⟩ := validatePendingGroup_state h
  unfold validatePendingGroup at h
  rw [hb] at h
  simp only at h
  cases hlof : card.lastOverdraftFee with
  | none =>
    simp only [hlof, Bool.and_false] at h
    cases h
    simp [hlof]
  | some d =>
    simp only [hlof] at h
    split at h
    · rename_i hcond
      rw [Bool.and_eq_true, decide_eq_true_eq, decide_eq_true_eq] at hcond
      rw [createOverdraftFeeTransaction_ok_of hact] at h
      cases h
      simp only [Option.isSome_some, true_iff]
      exact ⟨hcond.1, d, rfl, hcond.2⟩
    · rename_i hcond
      rw [Bool.and_eq_true, decide_eq_true_eq, decide_eq_true_eq] at hcond
      cases h
      simp only [Option.isSome_none, Bool.false_eq_true, false_iff]
      rintro ⟨hneg, d', hd', hstale⟩
      cases hd'
      exact hcond ⟨hneg, hstale⟩

/-- C2 counterexample: `cardA` has never been charged an overdraft fee
(`lastOverdraftFee = none`) and its group settles to running balance −150,
which is negative — yet the engine creates no fee, because its condition
requires a truthy `lastOverdraftFee`. -/
theorem c2_never_charged_no_fee :
    cardA.lastOverdraftFee = none ∧ (-150 : ℚ) < 0 ∧
    validatePendingGroup envA [wd150] cardA [wd150] =
      some ⟨⟨-150, [(11, "completed")], [(11, "completed")], []⟩, none, cardA⟩ := by
  refine ⟨rfl, by norm_num, ?_⟩
  have hbal : getBalances [wd150] cardA.id = .ok ⟨0, -150, -150⟩ := by
    norm_num [getBalances, wd150, cardA]
    decide
  have hstep : settleOne envA ⟨0, [], [], []⟩ wd150 =
      ⟨-150, [(11, "completed")], [(11, "completed")], []⟩ := by
    norm_num [settleOne, jsLt, jsAdd, jsUndefined, envA, wd150]
    intro h
    exact absurd h (by decide)
  unfold validatePendingGroup
  rw [hbal]
  simp only [List.foldl_cons, List.foldl_nil, hstep]
  norm_num [cardA]

/-- C3 (amended): in a settle step on a transaction whose card exists and is
active and whose cashback save does not hit a storage failure, a cashback
transaction is created if and only if the transaction is a withdrawal of
subtype `purchase` (settled `completed`) whose vendor is cashback-eligible
under case-insensitive comparison AND whose computed cashback amount
`round(|amount| × rate, 2)` is strictly positive; every created cashback is
a debit of subtype `cashback`, immediately `completed`, with that amount and
a description referencing the source transaction id. -/
theorem c3_cashback_iff (env : SettleEnv) (st : GroupState) (t : Transaction) (c : DebitCard)
    (hfind : env.cards.find? (fun cd => cd.id == t.debitCard) = some c)
    (hact : c.active = true)
    (hsave : env.cashbackSaveFails t.id = false) :
    ((settleOne env st t).cashbacks ≠ st.cashbacks ↔
      (t.type = "withdrawal" ∧ t.subtype = "purchase" ∧
       CASHBACK_VENDERS.contains (jsToUpperCase t.vender) = true ∧
       0 < round2 (|t.amount| * CASHBACK_RATE))) ∧
    (∀ cb, cb ∈ (settleOne env st t).cashbacks → cb ∉ st.cashbacks →
      cb.type = "debit" ∧ cb.subtype = "cashback" ∧ cb.status = "completed" ∧
      cb.amount = round2 (|t.amount| * CASHBACK_RATE) ∧ cb.vender = "ONE" ∧
      cb.description = "Cashback for eligible purchase - " ++ toString t.id) := by
  rw [settleOne_eq]
  constructor
  · rw [show (GroupState.mk (st.currentBalance + t.amount)
      (st.settled ++ [(t.id, "completed")]) (st.updates ++ updEntry env t)
      (st.cashbacks ++ cbEntry env t)).cashbacks = st.cashbacks ++ cbEntry env t from rfl,
      append_ne_self_iff_ne_nil]
    constructor
    · intro hne
      obtain ⟨cb, hcb⟩ := List.exists_mem_of_ne_nil _ hne
      obtain ⟨hty, hven, _, hok⟩ := mem_cbEntry hcb
      obtain ⟨c', _, _, _, _, hsub', hpos', _⟩ := createCashbackTransaction_ok hok
      exact ⟨hty, hsub', hven, hpos'⟩
    · rintro ⟨hty, hsub, hven, hpos⟩
      rw [cbEntry_of_conditions hfind hact hsave hty hsub hven hpos]
      simp
  · intro cb hmem hnot
    rcases List.mem_append.mp hmem with hl | hr
    · exact absurd hl hnot
    · obtain ⟨_, _, _, hok⟩ := mem_cbEntry hr
      obtain ⟨c', _, _, _, _, _, _, hcbeq⟩ := createCashbackTransaction_ok hok
      rw [hcbeq]
      exact ⟨rfl, rfl, rfl, rfl, rfl, rfl⟩

/-- C3 counterexample: the pending 0.30 purchase `small30` at eligible
vendor AMZN settles to `completed`, yet no cashback transaction is created:
`round(0.30 × 0.01, 2) = 0.00` is not a valid strictly positive debit
amount, so the cashback creation throws and is swallowed. -/
theorem c3_small_purchase_no_cashback :
    small30.type = "withdrawal" ∧ small30.subtype = "purchase" ∧
    CASHBACK_VENDERS.contains (jsToUpperCase small30.vender) = true ∧
    (settleOne envA ⟨100, [], [], []⟩ small30).settled = [(12, "completed")] ∧
    (settleOne envA ⟨100, [], [], []⟩ small30).cashbacks = [] := by
  have hr : round2 (|small30.amount| * CASHBACK_RATE) = 0 := by
    norm_num [small30, CASHBACK_RATE, round2, jsRound, ratFloor_eq_intFloor]
    rw [abs_of_nonneg (by norm_num : (0 : ℚ) ≤ 3 / 10)]
    norm_num
  have hr' : round2 (|({ small30 with status := "completed" } : Transaction).amount| *
      CASHBACK_RATE) = 0 := hr
  have herr := @createCashbackTransaction_not_pos envA.cards
    { small30 with status := "completed" } 0 envA.now
    (by norm_num [small30]) ⟨rfl, rfl, rfl⟩ (by rw [hr']; norm_num)
  refine ⟨rfl, rfl, by decide, ?_, ?_⟩
  · rw [settleOne_eq]
    exact rfl
  · have hcb : cbEntry envA small30 = [] := by
      unfold cbEntry
      rw [if_pos (show small30.type = "withdrawal" from rfl),
        if_pos (show CASHBACK_VENDERS.contains (jsToUpperCase small30.vender) = true by decide),
        herr]
    rw [settleOne_eq]
    show [] ++ cbEntry envA small30 = []
    rw [hcb]
    rfl

/-- C5 (amended): the settle loop is failure-isolated per transaction —
forcing the persistence of transaction `i`'s status update to fail leaves
the running balance, the in-memory settlements and the persisted cashbacks
of the whole group unchanged and merely drops `i`'s own update (later
transactions are processed identically) — BUT a failure creating a cashback
for a settled withdrawal is thrown before the status `updateOne`, so that
withdrawal's `completed` status is not persisted, even though the in-memory
settlement and the running-balance update already happened. -/
theorem c5_fail_forward :
    (∀ (env : SettleEnv) (i : Nat) (group : List Transaction) (c0 : ℚ),
      (group.foldl (settleOne (forceUpdateFail env i)) ⟨c0, [], [], []⟩).currentBalance =
        (group.foldl (settleOne env) ⟨c0, [], [], []⟩).currentBalance ∧
      (group.foldl (settleOne (forceUpdateFail env i)) ⟨c0, [], [], []⟩).settled =
        (group.foldl (settleOne env) ⟨c0, [], [], []⟩).settled ∧
      (group.foldl (settleOne (forceUpdateFail env i)) ⟨c0, [], [], []⟩).cashbacks =
        (group.foldl (settleOne env) ⟨c0, [], [], []⟩).cashbacks ∧
      (group.foldl (settleOne (forceUpdateFail env i)) ⟨c0, [], [], []⟩).updates =
        ((group.foldl (settleOne env) ⟨c0, [], [], []⟩).updates).filter
          (fun p => p.1 ≠ i)) ∧
    (∀ (env : SettleEnv) (st : GroupState) (t : Transaction) (e : HandledErr),
      t.type = "withdrawal" →
      CASHBACK_VENDERS.contains (jsToUpperCase t.vender) = true →
      Transaction.createCashbackTransaction env.cards
        { t with status := "completed" } 0 env.now = .error e →
      (settleOne env st t).updates = st.updates ∧
      (settleOne env st t).settled = st.settled ++ [(t.id, "completed")] ∧
      (settleOne env st t).currentBalance = st.currentBalance + t.amount) := by
  constructor
  · intro env i group c0
    have hc : cbEntry (forceUpdateFail env i) = cbEntry env :=
      funext fun t => cbEntry_forceUpdateFail env i t
    refine ⟨?_, ?_, ?_, ?_⟩
    · rw [settleFold_eq, settleFold_eq]
    · rw [settleFold_eq, settleFold_eq]
    · rw [settleFold_eq, settleFold_eq]
      show [] ++ group.flatMap (cbEntry (forceUpdateFail env i)) =
        [] ++ group.flatMap (cbEntry env)
      rw [hc]
    · rw [settleFold_eq, settleFold_eq]
      show [] ++ group.flatMap (updEntry (forceUpdateFail env i)) =
        (([] : List (Nat × String)) ++ group.flatMap (updEntry env)).filter
          (fun p => p.1 ≠ i)
      rw [List.nil_append, List.nil_append, flatMap_filter_key]
  · intro env st t e hty hven herr
    have hupd : updEntry env t = [] := by
      unfold updEntry
      rw [if_pos hty, if_pos hven, herr]
    refine ⟨?_, ?_, ?_⟩
    · rw [settleOne_eq]
      show st.updates ++ updEntry env t = st.updates
      rw [hupd]
      exact List.append_nil _
    · rw [settleOne_eq]
    · rw [settleOne_eq]

/-- C5 counterexample: the 0.30 purchase `small30` settles `completed` in
memory and the running balance moves, but the cashback creation fails
(cashback amount rounds to 0.00) before the status update is persisted:
`updates` is empty, so the `completed` status is NOT persisted, contrary to
the claim. -/
theorem c5_cashback_failure_not_persisted :
    (settleOne envA ⟨100, [], [], []⟩ small30).settled = [(12, "completed")] ∧
    (settleOne envA ⟨100, [], [], []⟩ small30).currentBalance = 100 + small30.amount ∧
    (settleOne envA ⟨100, [], [], []⟩ small30).updates = [] := by
  have hr : round2 (|small30.amount| * CASHBACK_RATE) = 0 := by
    norm_num [small30, CASHBACK_RATE, round2, jsRound, ratFloor_eq_intFloor]
    rw [abs_of_nonneg (by norm_num : (0 : ℚ) ≤ 3 / 10)]
    norm_num
  have hr' : round2 (|({ small30 with status := "completed" } : Transaction).amount| *
      CASHBACK_RATE) = 0 := hr
  have herr := @createCashbackTransaction_not_pos envA.cards
    { small30 with status := "completed" } 0 envA.now
    (by norm_num [small30]) ⟨rfl, rfl, rfl⟩ (by rw [hr']; norm_num)
  have hupd : updEntry envA small30 = [] := by
    unfold updEntry
    rw [if_pos (show small30.type = "withdrawal" from rfl),
      if_pos (show CASHBACK_VENDERS.contains (jsToUpperCase small30.vender) = true by decide),
      herr]
  refine ⟨?_, ?_, ?_⟩
  · rw [settleOne_eq]
    exact rfl
  · rw [settleOne_eq]
  · rw [settleOne_eq]
    show [] ++ updEntry envA small30 = []
    rw [hupd]
    rfl

/-- C6 (amended): for string account numbers resolving to existing active
cards, a strictly positive amount with at most two decimal digits, and a
sender whose balances are computable (at least one transaction),
`createTransferTransaction` fails with the 400 insufficient-funds error when
the sender's final balance is strictly below the amount, and otherwise
returns the ordered pair of a persisted withdrawal/transfer of `-amount` on
the sender and a persisted debit/credit of `+amount` on the receiver. -/
theorem c6_transfer (cards : List DebitCard) (txns : List Transaction)
    (senderAccountNumber receiverAccountNumber : String) (amount : ℚ)
    (id1 id2 : Nat) (now : Int) (sc rc : DebitCard) (bal : Balances)
    (hs : cards.find? (fun c => c.accountNumber == senderAccountNumber) = some sc)
    (hsa : sc.active = true)
    (hr : cards.find? (fun c => c.accountNumber == receiverAccountNumber) = some rc)
    (hra : rc.active = true)
    (hpos : 0 < amount) (hfix : round2 amount = amount)
    (hb : getBalances txns sc.id = .ok bal) :
    (bal.finalBalance < amount →
      Transaction.createTransferTransaction cards txns senderAccountNumber
        receiverAccountNumber amount id1 id2 now =
        .error ⟨"Insufficient funds for transfer", 400⟩) ∧
    (¬ bal.finalBalance < amount →
      Transaction.createTransferTransaction cards txns senderAccountNumber
        receiverAccountNumber amount id1 id2 now =
        .ok ({ id := id1, date := now, type := "withdrawal", subtype := "transfer",
               amount := -amount, status := "pending", vender := "SELF",
               description := "Transfer to " ++ toString rc.user,
               debitCard := sc.id, user := sc.user },
             { id := id2, date := now, type := "debit", subtype := "credit",
               amount := amount, status := "pending", vender := "SELF",
               description := "Transfer from " ++ toString sc.user,
               debitCard := rc.id, user := rc.user })) := by
  have hle : ¬ amount ≤ 0 := not_le.mpr hpos
  have hsndT : Transaction.create cards "withdrawal" "transfer" (-amount) "SELF"
      ("Transfer to " ++ toString rc.user) (.byCard sc) id1 now =
      .ok { id := id1, date := now, type := "withdrawal", subtype := "transfer",
            amount := -amount, status := "pending", vender := "SELF",
            description := "Transfer to " ++ toString rc.user,
            debitCard := sc.id, user := sc.user } :=
    create_ok_of (by decide) (fun hd => absurd hd (by decide))
      (fun _ => ⟨by decide, neg_lt_zero.mpr hpos, round2_neg_fix hfix⟩)
      (show findCard cards (.byCard sc) = some sc from rfl) hsa
  have hrcvT : Transaction.create cards "debit" "credit" amount "SELF"
      ("Transfer from " ++ toString sc.user) (.byCard rc) id2 now =
      .ok { id := id2, date := now, type := "debit", subtype := "credit",
            amount := amount, status := "pending", vender := "SELF",
            description := "Transfer from " ++ toString sc.user,
            debitCard := rc.id, user := rc.user } :=
    create_ok_of (by decide) (fun _ => ⟨by decide, hpos, hfix⟩)
      (fun hd => absurd rfl hd)
      (show findCard cards (.byCard rc) = some rc from rfl) hra
  constructor
  · intro hins
    simp only [Transaction.createTransferTransaction, hle, hs, hr, hsa, hra, hb, hins,
      not_true_eq_false, if_false, ite_false, if_true, ite_true]
  · intro hnot
    simp only [Transaction.createTransferTransaction, hle, hs, hr, hsa, hra, hb, hnot,
      not_true_eq_false, if_false, ite_false, hsndT, hrcvT]
    rfl

/-- C6 counterexample: the sender holds a final balance of 100, amply
covering a transfer of 0.001, yet the transfer is rejected with the
withdrawal-precision 400 error — 0.001 has three decimal digits, a case the
claim's "otherwise returns the pair" does not admit. -/
theorem c6_three_decimals_rejected :
    (0 : ℚ) < 1 / 1000 ∧
    getBalances [dep100] cardA.id = .ok ⟨100, 0, 100⟩ ∧
    ¬ ((100 : ℚ) < 1 / 1000) ∧
    Transaction.createTransferTransaction [cardA, cardB] [dep100]
      "4000000000000001" "4000000000000002" (1 / 1000) 31 32 5 =
      .error ⟨"Withdrawal transaction amount required as a negative number with no more than 2 decimal places", 400⟩ := by
  have hbal : getBalances [dep100] cardA.id = .ok ⟨100, 0, 100⟩ := by
    norm_num [getBalances, dep100, cardA]
    decide
  refine ⟨by norm_num, hbal, by norm_num, ?_⟩
  have hr2 : round2 (-(1 / 1000) : ℚ) = 0 := by
    norm_num [round2, jsRound, ratFloor_eq_intFloor]
  have hbad : ¬ ((-(1 / 1000) : ℚ) < 0 ∧ round2 (-(1 / 1000) : ℚ) = -(1 / 1000)) := by
    rintro ⟨_, hfix⟩
    rw [hr2] at hfix
    norm_num at hfix
  have hcr : Transaction.create [cardA, cardB] "withdrawal" "transfer" (-(1 / 1000))
      "SELF" ("Transfer to " ++ toString cardB.user) (.byCard cardA) 31 5 =
      .error ⟨"Withdrawal transaction amount required as a negative number with no more than 2 decimal places", 400⟩ := by
    unfold Transaction.create
    rw [if_neg (by decide), if_neg (fun hc => absurd hc.1 (by decide)),
      if_neg (fun hc => absurd hc.1 (by decide)), if_neg (fun hc => hc.2 (by decide)),
      if_pos ⟨by decide, hbad⟩]
  have hfs : ([cardA, cardB].find?
      (fun c => c.accountNumber == "4000000000000001")) = some cardA := by decide
  have hfr : ([cardA, cardB].find?
      (fun c => c.accountNumber == "4000000000000002")) = some cardB := by decide
  have hle : ¬ ((1 / 1000 : ℚ) ≤ 0) := by norm_num
  have hins : ¬ ((Balances.mk 100 0 100).finalBalance < 1 / 1000) := by norm_num
  simp only [Transaction.createTransferTransaction, hle, hfs, hfr, hbal, hins, hcr,
    not_true_eq_false, if_false, ite_false]
  rfl

/-- C7: the interest accrual job stages exactly one interest transaction per
user owning `completed` transactions whose summed amount is strictly
positive — a debit of subtype `interest`, status pre-set to `completed`,
amount `round(total × rate, 2)`, against the user's representative card —
and none for users whose total is zero or negative; the staged list is then
bulk-inserted unordered. -/
theorem c7_interest_accrual (txns : List Transaction) (now : Int) :
    ((addBalanceInterest txns now).map (fun tx => tx.user)).Nodup ∧
    (∀ u : Nat, (∃ tx ∈ addBalanceInterest txns now, tx.user = u) ↔
      ((∃ t ∈ txns, t.status = "completed" ∧ t.user = u) ∧
        0 < totalBalanceFor txns u)) ∧
    (∀ tx ∈ addBalanceInterest txns now,
      tx.type = "debit" ∧ tx.subtype = "interest" ∧ tx.status = "completed" ∧
      tx.amount = round2 (totalBalanceFor txns tx.user * INTEREST_RATE) ∧
      tx.debitCard = firstCardFor txns tx.user ∧
      0 < totalBalanceFor txns tx.user) := by
  have hf : ∀ u tx, (if 0 < totalBalanceFor txns u then
      some ({ id := 0, date := now, type := "debit", subtype := "interest",
              amount := round2 (totalBalanceFor txns u * INTEREST_RATE),
              status := "completed", vender := "ONE",
              description := "Interest added to account",
              debitCard := firstCardFor txns u, user := u } : Transaction)
      else none) = some tx → tx.user = u := by
    intro u tx h
    split at h
    · cases h
      rfl
    · exact Option.noConfusion h
  have hmc : ∀ t, t ∈ completedOf txns ↔ t ∈ txns ∧ t.status = "completed" := by
    intro t
    unfold completedOf
    rw [List.mem_filter]
    simp
  refine ⟨?_, ?_, ?_⟩
  · exact List.Nodup.sublist (filterMap_user_sublist _ hf _) (nodup_distinctKeys _)
  · intro u
    constructor
    · rintro ⟨tx, htx, rfl⟩
      rw [addBalanceInterest, List.mem_filterMap] at htx
      obtain ⟨v, hv, hFv⟩ := htx
      obtain rfl := hf v tx hFv
      rw [mem_distinctKeys, List.mem_map] at hv
      obtain ⟨t, ht, hut⟩ := hv
      rw [hmc] at ht
      refine ⟨⟨t, ht.1, ht.2, hut⟩, ?_⟩
      by_cases hposv : 0 < totalBalanceFor txns tx.user
      · exact hposv
      · rw [if_neg hposv] at hFv
        exact Option.noConfusion hFv
    · rintro ⟨⟨t, ht, hst, hu⟩, hpos⟩
      refine ⟨{ id := 0, date := now, type := "debit", subtype := "interest",
                amount := round2 (totalBalanceFor txns u * INTEREST_RATE),
                status := "completed", vender := "ONE",
                description := "Interest added to account",
                debitCard := firstCardFor txns u, user := u }, ?_, rfl⟩
      rw [addBalanceInterest, List.mem_filterMap]
      refine ⟨u, ?_, if_pos hpos⟩
      rw [mem_distinctKeys, List.mem_map]
      exact ⟨t, (hmc t).mpr ⟨ht, hst⟩, hu⟩
  · intro tx htx
    rw [addBalanceInterest, List.mem_filterMap] at htx
    obtain ⟨u, hu, hFu⟩ := htx
    split at hFu
    · cases hFu
      rename_i hposu
      exact ⟨rfl, rfl, rfl, rfl, rfl, hposu⟩
    · exact Option.noConfusion hFu

/-! ### Witnesses -/

/-- Witness for C4 at the one-transaction account `cardA` holding `dep100`. -/
theorem c4_balances_witness :
    [dep100].filter (fun t => t.debitCard == (1 : Nat)) ≠ [] ∧
    ∃ b, getBalances [dep100] 1 = .ok b ∧
      b.finalBalance = b.currentBalance + b.pendingBalance := by
  refine ⟨by decide, ?_⟩
  obtain ⟨b, h1, _, _, h4⟩ := c4_balances_characterization [dep100] 1 (by decide)
  exact ⟨b, h1, h4⟩

/-- Witness for C8: a debit of amount −5 is rejected with a 400 error. -/
theorem c8_create_amount_validation_witness :
    ("debit" : String) = "debit" ∧ ¬ ((0 : ℚ) < -5 ∧ round2 (-5) = -5) ∧
    ∃ e, Transaction.create [cardA] "debit" "credit" (-5) "V" "" (.byCard cardA) 1 0 =
      .error e ∧ e.code = 400 := by
  have hbad : ¬ ((0 : ℚ) < -5 ∧ round2 (-5) = -5) := by
    rintro ⟨h, _⟩
    norm_num at h
  exact ⟨rfl, hbad,
    (c8_create_amount_validation [cardA] "debit" "credit" (-5) "V" "" (.byCard cardA) 1 0).1
      rfl hbad⟩

/-- Witness for C9: canceling the already-completed `dep100` fails with the
400 client fault. -/
theorem c9_status_transitions_witness :
    dep100.status ≠ "pending" ∧
    Transaction.cancel dep100 =
      .error ⟨"Transaction cannot be canceled once executed", 400⟩ :=
  ⟨by decide, c9_status_transitions.2.1 dep100 (by decide)⟩

/-- Witness for C10: a transfer from the freshly created `cardA` (no
transactions at all) fails with the 500 balance error. -/
theorem c10_empty_account_balance_throws_witness :
    ([] : List Transaction).filter (fun t => t.debitCard == cardA.id) = [] ∧
    Transaction.createTransferTransaction [cardA, cardB] []
      "4000000000000001" "4000000000000002" 5 1 2 0 =
      .error ⟨"Error getting debit card balances", 500⟩ :=
  ⟨rfl, c10_empty_account_balance_throws.2 [cardA, cardB] []
    "4000000000000001" "4000000000000002" 5 1 2 0 cardA cardB
    (by decide) rfl (by decide) rfl (by norm_num) rfl⟩

/-- Witness for C3: the 20-unit purchase `buy20` at lowercase vendor "amzn"
does create a cashback in a settle step. -/
theorem c3_cashback_iff_witness :
    (settleOne envA ⟨100, [], [], []⟩ buy20).cashbacks ≠
      (GroupState.mk 100 [] [] []).cashbacks := by
  have hpos : 0 < round2 (|buy20.amount| * CASHBACK_RATE) := by
    norm_num [buy20, CASHBACK_RATE, round2, jsRound, ratFloor_eq_intFloor]
  exact ((c3_cashback_iff envA ⟨100, [], [], []⟩ buy20 cardA (by decide) rfl rfl).1).mpr
    ⟨rfl, rfl, by decide, hpos⟩

/-- Witness for C5: at `small30` the cashback creation fails and the update
list stays empty while the in-memory settlement happened. -/
theorem c5_fail_forward_witness :
    (settleOne envA ⟨100, [], [], []⟩ small30).updates =
      (GroupState.mk 100 [] [] []).updates ∧
    (settleOne envA ⟨100, [], [], []⟩ small30).settled =
      (GroupState.mk 100 [] [] []).settled ++ [(small30.id, "completed")] ∧
    (settleOne envA ⟨100, [], [], []⟩ small30).currentBalance =
      (GroupState.mk 100 [] [] []).currentBalance + small30.amount := by
  have hr : round2 (|small30.amount| * CASHBACK_RATE) = 0 := by
    norm_num [small30, CASHBACK_RATE, round2, jsRound, ratFloor_eq_intFloor]
    rw [abs_of_nonneg (by norm_num : (0 : ℚ) ≤ 3 / 10)]
    norm_num
  have hr' : round2 (|({ small30 with status := "completed" } : Transaction).amount| *
      CASHBACK_RATE) = 0 := hr
  have herr := @createCashbackTransaction_not_pos envA.cards
    { small30 with status := "completed" } 0 envA.now
    (by norm_num [small30]) ⟨rfl, rfl, rfl⟩ (by rw [hr']; norm_num)
  exact c5_fail_forward.2 envA ⟨100, [], [], []⟩ small30 _ rfl (by decide) herr

/-- Witness for C7 at a store holding one completed 50-unit credit of
user 8: user 8 gets an interest transaction iff their positive total says
so. -/
theorem c7_interest_accrual_witness :
    (∃ tx ∈ addBalanceInterest [dep50] 9, tx.user = 8) ↔
      ((∃ t ∈ [dep50], t.status = "completed" ∧ t.user = 8) ∧
        0 < totalBalanceFor [dep50] 8) :=
  (c7_interest_accrual [dep50] 9).2.1 8

/-- Witness for C6: transferring 20 from `cardA` (final balance 100) to
`cardB` produces the withdrawal/credit pair. -/
theorem c6_transfer_witness :
    Transaction.createTransferTransaction [cardA, cardB] [dep100]
      "4000000000000001" "4000000000000002" 20 31 32 5 =
      .ok ({ id := 31, date := 5, type := "withdrawal", subtype := "transfer",
             amount := -20, status := "pending", vender := "SELF",
             description := "Transfer to " ++ toString cardB.user,
             debitCard := cardA.id, user := cardA.user },
           { id := 32, date := 5, type := "debit", subtype := "credit",
             amount := 20, status := "pending", vender := "SELF",
             description := "Transfer from " ++ toString cardA.user,
             debitCard := cardB.id, user := cardB.user }) := by
  have hbal : getBalances [dep100] cardA.id = .ok ⟨100, 0, 100⟩ := by
    norm_num [getBalances, dep100, cardA]
    decide
  have hfix : round2 (20 : ℚ) = 20 := by
    have := round2_intCast_div 2000
    norm_num at this
    exact this
  exact (c6_transfer [cardA, cardB] [dep100] "4000000000000001" "4000000000000002"
    20 31 32 5 cardA cardB ⟨100, 0, 100⟩ (by decide) rfl (by decide) rfl
    (by norm_num) hfix hbal).2 (by norm_num)

/-- Witness for C2: `cardStale` (last fee at epoch 0, now 10^9 ms later)
settles to −5 and receives an overdraft fee. -/
theorem c2_overdraft_fee_iff_witness :
    ((GroupResult.mk ⟨-5, [(15, "completed")], [(15, "completed")], []⟩
      (some ⟨0, 1000000000, "withdrawal", "fee", -10, "completed", "ONE",
        "Overdraft fee", 3, 9⟩)
      ⟨3, "4000000000000003", true, some 1000000000, 9⟩).fee.isSome = true) ↔
    ((GroupResult.mk ⟨-5, [(15, "completed")], [(15, "completed")], []⟩
      (some ⟨0, 1000000000, "withdrawal", "fee", -10, "completed", "ONE",
        "Overdraft fee", 3, 9⟩)
      ⟨3, "4000000000000003", true, some 1000000000, 9⟩).state.currentBalance < 0 ∧
      ∃ d, cardStale.lastOverdraftFee = some d ∧ envA.now - d > FIVE_DAYS) := by
  have hbal : getBalances [wd5] cardStale.id = .ok ⟨0, -5, -5⟩ := by
    norm_num [getBalances, wd5, cardStale]
    decide
  have hstep : settleOne envA ⟨0, [], [], []⟩ wd5 =
      ⟨-5, [(15, "completed")], [(15, "completed")], []⟩ := by
    norm_num [settleOne, jsLt, jsAdd, jsUndefined, envA, wd5]
    intro h
    exact absurd h (by decide)
  have hgroup : validatePendingGroup envA [wd5] cardStale [wd5] =
      some ⟨⟨-5, [(15, "completed")], [(15, "completed")], []⟩,
        some ⟨0, 1000000000, "withdrawal", "fee", -10, "completed", "ONE",
          "Overdraft fee", 3, 9⟩,
        ⟨3, "4000000000000003", true, some 1000000000, 9⟩⟩ := by
    unfold validatePendingGroup
    rw [hbal]
    simp only [List.foldl_cons, List.foldl_nil, hstep]
    rw [if_pos (by norm_num [cardStale, envA, FIVE_DAYS])]
    rw [createOverdraftFeeTransaction_ok_of rfl]
    simp [envA, cardStale]
  exact c2_overdraft_fee_iff envA [wd5] cardStale [wd5] _ rfl hgroup

end MiniOne
